import Mathlib

/-!
Verification of the helical data-to-embedding pipeline and classifier harness.

This file gives a shallow embedding of the relevant source code:
* `helical/classification/classifier.py` (the `Classifier` orchestration),
* `helical/models/scgpt/model.py` (`scGPT.process_data`),
* `helical/models/uce/model.py` (`UCE.process_data`),
and proves properties of that embedding.

Conventions of the embedding:
* An `AnnData` object is a cells-by-genes count matrix with per-gene
  (`var`) and per-cell (`obs`) metadata.  In-place mutation of the
  caller's `AnnData` is made explicit: a mutating operation returns the
  final state of its `AnnData` argument alongside its ordinary result.
* Python exceptions are `Except PipelineError` results.
* Collaborator code of the repository that is not part of the given
  sources (`check_rna_data_validity` / `ensure_rna_data_validity` of
  `HelicalRNAModel`, `load_gene_embeddings_adata`, `get_positions`,
  `get_protein_embeddings_idxs`) is modelled from the specification; each
  such definition carries a doc comment saying so.
* The scanpy library call `sc.pp.filter_genes(adata, min_cells=n)` is
  modelled by its documented semantics: keep the genes that are expressed
  (nonzero) in at least `n` cells, subsetting the matrix and the gene
  metadata in place.
-/

namespace Helical

/-- Per-gene and per-cell annotated count matrix (the `AnnData` object).
`X` is row-major, one row per cell.  `varIndex` is `adata.var.index`
(the gene symbols); `varColumns` are the other string-valued columns of
`adata.var`; `idInVocab` is the integer-valued `adata.var["id_in_vocab"]`
column when present; `obsColumns` are the string-valued columns of
`adata.obs` (labels, batch ids). -/
structure AnnData where
  X : List (List Nat)
  varIndex : List String
  varColumns : List (String × List String)
  idInVocab : Option (List Int)
  obsColumns : List (String × List String)
deriving Repr, DecidableEq

/-- `adata.var[col]`: the distinguished name `"index"` denotes
`adata.var.index` (the convention of `process_data`'s `gene_column_name`
arguments); any other name is looked up among the metadata columns. -/
def AnnData.getVarColumn (a : AnnData) (col : String) : Option (List String) :=
  if col = "index" then some a.varIndex else a.varColumns.lookup col

/-- Structural well-formedness of an `AnnData` object (enforced by the
anndata library): every row of `X` and every `var` column has one entry
per gene. -/
def AnnData.wellFormed (a : AnnData) : Prop :=
  (∀ row ∈ a.X, row.length = a.varIndex.length) ∧
  (∀ c ∈ a.varColumns, c.2.length = a.varIndex.length) ∧
  (a.idInVocab.map List.length).getD a.varIndex.length = a.varIndex.length

instance (a : AnnData) : Decidable a.wellFormed :=
  instDecidableAnd

/-- Python exceptions raised by the embedded code. -/
inductive PipelineError where
  | keyError (msg : String)
  | typeError (msg : String)
  | assertionError (msg : String)
deriving Repr, DecidableEq

/-- Restrict a row (or any per-gene sequence) to the positions whose mask
entry is `true`; this is numpy/pandas boolean-mask column selection. -/
def maskCols {α : Type} (mask : List Bool) (row : List α) : List α :=
  (row.zip mask).filterMap (fun p => if p.2 then some p.1 else none)

/-- In-place boolean-mask gene subsetting of an `AnnData` object:
`adata = adata[:, mask]` materialised over every per-gene component. -/
def AnnData.restrictGenes (a : AnnData) (mask : List Bool) : AnnData :=
  { a with
    X := a.X.map (maskCols mask)
    varIndex := maskCols mask a.varIndex
    varColumns := a.varColumns.map (fun c => (c.1, maskCols mask c.2))
    idInVocab := a.idInVocab.map (maskCols mask) }

/-- A gene vocabulary: gene symbol to integer token id
(`torchtext`-style, ids are nonnegative indices). -/
abbrev Vocab := List (String × Nat)

/-- The VocabularyMapper of `scGPT.process_data` (model.py line 195):
`[self.vocab[gene] if gene in self.vocab else -1 for gene in adata.var[gene_column_name]]`.
A pure function of the vocabulary and the symbol sequence: one integer id
per symbol, the vocabulary's id when present, the sentinel `-1` when
absent; the vocabulary is not modified. -/
def idInVocabList (vocab : Vocab) (genes : List String) : List Int :=
  genes.map (fun g =>
    match vocab.lookup g with
    | some id => Int.ofNat id
    | none => -1)

/-- Modelled from the spec: `check_rna_data_validity` /
`ensure_rna_data_validity` of `HelicalRNAModel` (helical/models, not among
the given sources) — "Validate required columns/keys exist (gene symbol
column) — fails with SchemaError naming the missing field". -/
def ensureRNADataValidity (adata : AnnData) (geneColumnName : String) :
    Except PipelineError Unit :=
  match adata.getVarColumn geneColumnName with
  | some _ => Except.ok ()
  | none => Except.error (.keyError ("Data must have the key " ++ geneColumnName ++ "."))

/-- The dataset produced by `scGPT.process_data`: the restricted dense
count matrix, the gene token ids, the vocabulary reference and the
optional batch ids. -/
structure SCGPTDataset where
  countMatrix : List (List Nat)
  geneIds : List Int
  vocab : Vocab
  batchIds : Option (List String)
deriving Repr, DecidableEq

namespace scGPT

/-- `scGPT.check_data_validity`: the RNA-data check plus, when batch
labels are requested, presence of the `batch_id` obs key. -/
def checkDataValidity (adata : AnnData) (geneColumnName : String)
    (useBatchLabels : Bool) : Except PipelineError Unit :=
  match ensureRNADataValidity adata geneColumnName with
  | Except.error e => Except.error e
  | Except.ok () =>
    if useBatchLabels ∧ (adata.obsColumns.lookup "batch_id").isNone then
      Except.error (.keyError
        "Data must have the obs key batch_id to be processed by the scGPT model.")
    else Except.ok ()

/-- `scGPT.process_data` (model.py lines 183-216), `fine_tuning = False`
path (the fine-tuning branch performs scanpy normalisation/HVG selection
and is outside this embedding).  Returns the final state of the caller's
`adata` — line 195 writes the `id_in_vocab` var column in place, while
line 196 (`adata = adata[:, ...]`) only rebinds the local name — together
with the produced dataset or the raised exception.  The dead
`if gene_ids is None` branch (line 206, unreachable because line 202
always assigns an array) is omitted.  `set_default_index(vocab["<pad>"])`
makes the second lookup (line 202) fall back to the pad id. -/
def processData (vocab : Vocab) (padToken : String) (adata : AnnData)
    (geneColumnName : String) (useBatchLabels : Bool) :
    AnnData × Except PipelineError SCGPTDataset :=
  match checkDataValidity adata geneColumnName useBatchLabels with
  | Except.error e => (adata, Except.error e)
  | Except.ok () =>
    let geneSyms := (adata.getVarColumn geneColumnName).getD []
    let ids := idInVocabList vocab geneSyms
    let adata1 := { adata with idInVocab := some ids }
    let mask := ids.map (fun i => decide (0 ≤ i))
    let keptGenes := maskCols mask geneSyms
    let padId : Nat := (vocab.lookup padToken).getD 0
    let geneIds : List Int := keptGenes.map (fun g => Int.ofNat ((vocab.lookup g).getD padId))
    let countMatrix := adata1.X.map (maskCols mask)
    if geneIds.all (fun i => decide (0 ≤ i)) then
      (adata1, Except.ok
        { countMatrix := countMatrix
          geneIds := geneIds
          vocab := vocab
          batchIds := if useBatchLabels
            then some ((adata.obsColumns.lookup "batch_id").getD [])
            else none })
    else
      (adata1, Except.error (.assertionError "assert np.all(gene_ids >= 0)"))

end scGPT

/-! ### UCE -/

/-- The external species-specific reference material consumed by
`UCE.process_data`: the gene symbols that have protein embeddings for the
configured species, the species chromosome table (gene symbol to
chromosome label and start position) and the species' offset into the
stacked protein-embedding matrix. -/
structure UCERefs where
  embeddingKnown : List String
  chromTable : List (String × String × Nat)
  offset : Nat
deriving Repr, DecidableEq

/-- The `UCEDataset` produced by `UCE.process_data`: the dataset name,
the shapes dictionary (name to (cells, genes)), the dense expression
counts handed to `prepare_expression_counts_file` (the count matrix the
dataset owns), the protein-embedding row indices, and the chromosome
labels and start positions. -/
structure UCEDataset where
  sortedDatasetNames : List String
  shapesDict : List (String × Nat × Nat)
  storedCounts : List (List Nat)
  peRowIdxs : List Nat
  chroms : List String
  starts : List Nat
deriving Repr, DecidableEq

/-- Modelled from the spec: `load_gene_embeddings_adata`
(helical/models/uce/gene_embeddings.py, not among the given sources) —
"drop any gene absent from these reference tables" for the
protein-embedding table.  It returns the filtered data as a new object
(`model.py` binds the result to the distinct name `filtered_adata` and
keeps using `adata` separately) together with the species' known gene
symbols; the caller's `adata` is not modified. -/
def loadGeneEmbeddingsAdata (adata : AnnData) (embeddingKnown : List String) :
    AnnData × List String :=
  let mask := adata.varIndex.map (fun g => embeddingKnown.contains g)
  (adata.restrictGenes mask, embeddingKnown)

/-- The scanpy call `sc.pp.filter_genes(adata, min_cells=n)`, modelled by
its documented semantics: the mask of genes expressed (nonzero) in at
least `n` cells. -/
def minCellsMask (X : List (List Nat)) (nGenes : Nat) (minCells : Nat) : List Bool :=
  (List.range nGenes).map (fun j => decide (minCells ≤ X.countP (fun row => row.getD j 0 != 0)))

/-- Modelled from the spec: `get_positions` (helical/models/uce/uce_utils.py,
not among the given sources) — "Resolve ... chromosome/position metadata
for surviving genes from external species-specific reference tables; drop
any gene absent from these reference tables". -/
def getPositions (chromTable : List (String × String × Nat)) (genes : List String) :
    List String × List Nat :=
  (genes.filterMap (fun g => (chromTable.lookup g).map Prod.fst),
   genes.filterMap (fun g => (chromTable.lookup g).map Prod.snd))

/-- Modelled from the spec: `get_protein_embeddings_idxs`
(helical/models/uce/uce_utils.py, not among the given sources) —
"Resolve protein-embedding row index ... for surviving genes": one row
index per surviving gene, the species offset plus the gene's position
among the species' known symbols. -/
def getProteinEmbeddingsIdxs (offset : Nat) (allGeneSymbols : List String)
    (genes : List String) : List Nat :=
  genes.map (fun g => offset + allGeneSymbols.indexOf g)

/-- The message logged by `UCE.process_data` (model.py lines 142-146) when
the parallel per-gene arrays disagree in length. -/
def uceAlignmentMsg (lc ls ng lp : Nat) : String :=
  "Invalid input dimensions for the UCEDataset! dataset_chroms: " ++ toString lc ++
  ", dataset_start: " ++ toString ls ++ ", num_genes: " ++ toString ng ++
  ", pe_row_idxs.shape[0]: " ++ toString lp

/-- The alignment validation of `UCE.process_data` (model.py lines
141-147): Python's chained comparison
`len(dataset_chroms) == len(dataset_start) == num_genes == pe_row_idxs.shape[0]`;
on mismatch the lengths are logged and an `AssertionError` is raised. -/
def uceAlignmentCheck (datasetChroms : List String) (datasetStart : List Nat)
    (numGenes : Nat) (peRowIdxs : List Nat) : Except PipelineError Unit :=
  if datasetChroms.length = datasetStart.length ∧ datasetStart.length = numGenes ∧
      numGenes = peRowIdxs.length then
    Except.ok ()
  else
    Except.error (.assertionError
      (uceAlignmentMsg datasetChroms.length datasetStart.length numGenes peRowIdxs.length))

namespace UCE

/-- The in-place mutation phase of `UCE.process_data` (model.py lines
104-119): line 105 reassigns `adata.var.index` to the given gene column
when it is not the default `"index"`, and `sc.pp.filter_genes`
(line 119, run only when `filter_genes_min_cell` is given) subsets the
caller's genes in place. -/
def mutateAdata (adata : AnnData) (geneNames : String)
    (filterGenesMinCell : Option Nat) : AnnData :=
  let adata1 := if geneNames ≠ "index" then
      { adata with varIndex := (adata.getVarColumn geneNames).getD adata.varIndex }
    else adata
  match filterGenesMinCell with
  | some n => adata1.restrictGenes (minCellsMask adata1.X adata1.varIndex.length n)
  | none => adata1

/-- `UCE.process_data` (model.py lines 72-158).  Returns the final state
of the caller's `adata` (see `mutateAdata`) together with the produced
dataset or the raised exception.  `num_cells`/`num_genes` are
`filtered_adata.X.shape`, which anndata keeps equal to
(number of obs, number of var entries).  Line 127 takes
`gene_expression` from `adata` (post-min-cell-filter, but NOT
protein-embedding-filtered), not from `filtered_adata`. -/
def processData (refs : UCERefs) (adata : AnnData) (geneNames : String)
    (name : String) (filterGenesMinCell : Option Nat) :
    AnnData × Except PipelineError UCEDataset :=
  match ensureRNADataValidity adata geneNames with
  | Except.error e => (adata, Except.error e)
  | Except.ok () =>
    let adata2 := mutateAdata adata geneNames filterGenesMinCell
    let fa := loadGeneEmbeddingsAdata adata2 refs.embeddingKnown
    let filteredAdata := fa.1
    let speciesGeneSymbols := fa.2
    let geneExpression := adata2.X
    let numCells := filteredAdata.X.length
    let numGenes := filteredAdata.varIndex.length
    let shapesDict := [(name, (numCells, numGenes))]
    let peRowIdxs := getProteinEmbeddingsIdxs refs.offset speciesGeneSymbols filteredAdata.varIndex
    let pos := getPositions refs.chromTable filteredAdata.varIndex
    match uceAlignmentCheck pos.1 pos.2 numGenes peRowIdxs with
    | Except.error e => (adata2, Except.error e)
    | Except.ok () =>
      (adata2, Except.ok
        { sortedDatasetNames := [name]
          shapesDict := shapesDict
          storedCounts := geneExpression
          peRowIdxs := peRowIdxs
          chroms := pos.1
          starts := pos.2 })

end UCE

/-! ### Classifier (helical/classification/classifier.py)

The base model and the head are opaque collaborators (spec section 6):
they are embedded as records of functions plus boolean capability flags.
A flag says whether the Python object has the corresponding method, which
is exactly what `isinstance(x, <runtime_checkable Protocol>)` inspects.
Datasets and embedding matrices exchanged with the collaborators are
opaque `List (List Int)` values. -/

/-- An object offered as `base_model`: `hasProcessData`/`hasGetEmbeddings`
record whether the methods exist (what `BaseModelProtocol` checks);
`processDataFn`/`getEmbeddingsFn` are the methods' behaviour. -/
structure BaseModelObj where
  clsName : String
  hasProcessData : Bool
  hasGetEmbeddings : Bool
  processDataFn : AnnData → String → List (List Int)
  getEmbeddingsFn : List (List Int) → List (List Int)

/-- An object offered as `classification_model` / stored as
`trained_task_model`: `hasPredict` records whether a `predict` method
exists (what `ClassificationModelProtocol` checks); `predictFn` accepts
raw data or an embedding matrix, as in the source's `Union` type. -/
structure TrainedModelObj where
  hasPredict : Bool
  predictFn : (AnnData ⊕ List (List Int)) → List Int

/-- A trainable head (`BaseTaskModel`): `trainFn` absorbs
`compile`/`train_test_split`/`train` and yields the trained task model. -/
structure HeadObj where
  clsName : String
  trainFn : List (List Int) → List String → TrainedModelObj

/-- `isinstance(m, BaseModelProtocol)`: the object has both
`process_data` and `get_embeddings`. -/
def isBaseModelProtocol (m : BaseModelObj) : Bool :=
  m.hasProcessData && m.hasGetEmbeddings

/-- The four instance fields of `Classifier` set by `__init__`. -/
structure ClassifierState where
  trainedTaskModel : Option TrainedModelObj
  baseModel : Option BaseModelObj
  name : Option String
  geneColName : Option String

/-- `Classifier.__init__`: all four fields are `None`. -/
def ClassifierState.init : ClassifierState :=
  { trainedTaskModel := none, baseModel := none, name := none, geneColName := none }

/-- `Classifier.get_predictions` (classifier.py lines 32-57).  Returns
the state of `self` after the call and the produced prediction array (or
the raised exception).  When a base model is bound, line 52 assigns
`self.gene_col_name = gene_col_name` before processing; calling
`predict` on a `None` task model is an `AttributeError`, and handing an
embedding matrix to the base model's `process_data` is outside that
method's contract — both are modelled as errors. -/
def ClassifierState.getPredictions (s : ClassifierState)
    (x : AnnData ⊕ List (List Int)) (geneColName : String) :
    ClassifierState × Except PipelineError (List Int) :=
  match s.baseModel with
  | some bm =>
    let s1 := { s with geneColName := some geneColName }
    match x with
    | Sum.inl adata =>
      let dataset := bm.processDataFn adata geneColName
      let embeddings := bm.getEmbeddingsFn dataset
      match s1.trainedTaskModel with
      | some t => (s1, Except.ok (t.predictFn (Sum.inr embeddings)))
      | none => (s1, Except.error (.typeError
          "AttributeError: NoneType object has no attribute predict"))
    | Sum.inr _ => (s1, Except.error (.typeError
        "process_data expects an AnnData object"))
  | none =>
    match s.trainedTaskModel with
    | some t => (s, Except.ok (t.predictFn x))
    | none => (s, Except.error (.typeError
        "AttributeError: NoneType object has no attribute predict"))

/-- `Classifier.train_classifier_head` (classifier.py lines 59-117).
Lines 98-99 assign `self.base_model` and `self.name` BEFORE
`_check_validity_for_training` runs; `_check_validity_for_training`
(lines 165-201) checks the `BaseModelProtocol` capability and the
presence of the labels column, and raises `TypeError` with the message of
the last failed check.  On success the gene column name is stored
(line 105), the embeddings are extracted and the head is trained. -/
def ClassifierState.trainClassifierHead (s : ClassifierState)
    (trainAnndata : AnnData) (baseModel : BaseModelObj) (head : HeadObj)
    (geneColName : String) (labelsColumnName : String) :
    ClassifierState × Except PipelineError Unit :=
  let s1 := { s with
    baseModel := some baseModel
    name := some (baseModel.clsName ++ " with " ++ head.clsName) }
  let capOk := isBaseModelProtocol baseModel
  let labelOk := (trainAnndata.obsColumns.lookup labelsColumnName).isSome
  if ¬capOk ∨ ¬labelOk then
    (s1, Except.error (.typeError
      (if ¬labelOk then
        "Column " ++ labelsColumnName ++ " not found in the evaluation data."
      else
        "To train a classifier head, a base model of type BaseModelProtocol needs to generate the embeddings first.")))
  else
    let dataset := baseModel.processDataFn trainAnndata geneColName
    let s2 := { s1 with geneColName := some geneColName }
    let x := baseModel.getEmbeddingsFn dataset
    let y := (trainAnndata.obsColumns.lookup labelsColumnName).getD []
    let trained := head.trainFn x y
    ({ s2 with trainedTaskModel := some trained }, Except.ok ())

/-- `Classifier.load_model` (classifier.py lines 119-163).  Both
capability checks run before any field is assigned; a `None` base model
is falsy, so only a supplied base model is checked against
`BaseModelProtocol`. -/
def ClassifierState.loadModel (s : ClassifierState)
    (baseModel : Option BaseModelObj) (classificationModel : TrainedModelObj)
    (name : String) : ClassifierState × Except PipelineError Unit :=
  if (match baseModel with
      | some bm => ¬isBaseModelProtocol bm
      | none => false : Bool) then
    (s, Except.error (.typeError
      "Expected an instance of a class implementing BaseModelProtocol."))
  else if ¬classificationModel.hasPredict then
    (s, Except.error (.typeError
      "Expected an instance of a class implementing ClassificationModelProtocol."))
  else
    ({ trainedTaskModel := some classificationModel
       baseModel := baseModel
       name := some name
       geneColName := s.geneColName }, Except.ok ())

/-! ### Helper predicates and lemmas -/

/-- Whether an exception result is an `AssertionError`. -/
def isAssertError {α : Type} : Except PipelineError α → Bool
  | Except.error (.assertionError _) => true
  | _ => false

/-- Whether an exception result is a `TypeError`. -/
def isTypeError {α : Type} : Except PipelineError α → Bool
  | Except.error (.typeError _) => true
  | _ => false

/-! ### Concrete demonstration objects -/

/-- A three-entry vocabulary with the scGPT pad token. -/
def demoVocab : Vocab := [("A", 3), ("B", 7), ("<pad>", 0)]

/-- One cell, three genes; `Z` is not in `demoVocab`. -/
def demoAdata : AnnData :=
  { X := [[1, 2, 4]], varIndex := ["A", "Z", "B"], varColumns := [],
    idInVocab := none, obsColumns := [("cell_type", ["x"])] }

/-- `demoAdata` after `scGPT.process_data` wrote the `id_in_vocab` column. -/
def demoAdataAfter : AnnData :=
  { demoAdata with idInVocab := some [3, -1, 7] }

/-- The dataset `scGPT.process_data` produces from `demoAdata`. -/
def demoDs : SCGPTDataset :=
  { countMatrix := [[1, 4]], geneIds := [3, 7], vocab := demoVocab, batchIds := none }

/-- UCE reference tables covering genes `A` and `B`. -/
def demoRefsU : UCERefs :=
  { embeddingKnown := ["A", "B"],
    chromTable := [("A", ("chr1", 5)), ("B", ("chr2", 9))], offset := 2 }

/-- One cell, three genes; `C` is never expressed and is unknown to the
reference tables. -/
def demoAdataU : AnnData :=
  { X := [[5, 7, 0]], varIndex := ["A", "B", "C"], varColumns := [],
    idInVocab := none, obsColumns := [] }

/-- `demoAdataU` after the in-place `min_cells = 1` gene filter. -/
def demoAdataUAfter : AnnData :=
  { X := [[5, 7]], varIndex := ["A", "B"], varColumns := [],
    idInVocab := none, obsColumns := [] }

/-- The dataset `UCE.process_data` produces from `demoAdataU`. -/
def demoDsU : UCEDataset :=
  { sortedDatasetNames := ["test"], shapesDict := [("test", (1, 2))],
    storedCounts := [[5, 7]], peRowIdxs := [2, 3],
    chroms := ["chr1", "chr2"], starts := [5, 9] }

/-- UCE reference tables that know gene `A` but not gene `B`. -/
def demoRefsC3 : UCERefs :=
  { embeddingKnown := ["A"], chromTable := [("A", ("chr1", 100))], offset := 0 }

/-- One cell, two genes, of which only `A` has a protein embedding. -/
def demoAdataC3 : AnnData :=
  { X := [[5, 7]], varIndex := ["A", "B"], varColumns := [],
    idInVocab := none, obsColumns := [] }

/-- The dataset `UCE.process_data` produces from `demoAdataC3`: one
surviving gene in the shapes dictionary, yet a two-column stored count
matrix. -/
def demoDsC3 : UCEDataset :=
  { sortedDatasetNames := ["test"], shapesDict := [("test", (1, 1))],
    storedCounts := [[5, 7]], peRowIdxs := [0], chroms := ["chr1"], starts := [100] }

/-- One cell, two genes, with a `gene_name` metadata column differing
from the var index. -/
def demoAdataG : AnnData :=
  { X := [[1, 2]], varIndex := ["a", "b"],
    varColumns := [("gene_name", ["G1", "G2"])],
    idInVocab := none, obsColumns := [] }

/-- A task model that is loadable (`predict` exists). -/
def demoTrained : TrainedModelObj :=
  { hasPredict := true, predictFn := fun _ => [0] }

/-- A base model satisfying `BaseModelProtocol`. -/
def goodBaseModel : BaseModelObj :=
  { clsName := "scGPT", hasProcessData := true, hasGetEmbeddings := true,
    processDataFn := fun _ _ => [[1]], getEmbeddingsFn := fun d => d }

/-- An object lacking `get_embeddings`; `isinstance(_, BaseModelProtocol)`
is false for it. -/
def badBaseModel : BaseModelObj :=
  { clsName := "BadBase", hasProcessData := true, hasGetEmbeddings := false,
    processDataFn := fun _ _ => [], getEmbeddingsFn := fun d => d }

/-- A trainable head. -/
def demoHead : HeadObj :=
  { clsName := "NeuralNetwork", trainFn := fun _ _ => demoTrained }

/-- A classifier in the `ready` state with a bound base model. -/
def demoReadyState : ClassifierState :=
  { trainedTaskModel := some demoTrained, baseModel := some goodBaseModel,
    name := some "scGPT with NeuralNetwork", geneColName := some "index" }

theorem getD_map_lt {α β : Type} (f : α → β) :
    ∀ (l : List α) (i : Nat), i < l.length →
      ∀ (d : α) (d' : β), (l.map f).getD i d' = f (l.getD i d)
  | [], i, h => absurd h (Nat.not_lt_zero i)
  | _ :: _, 0, _ => fun _ _ => rfl
  | _ :: l, i + 1, h => fun d d' =>
    getD_map_lt f l i (Nat.lt_of_succ_lt_succ h) d d'

/-- Selecting with the mask `l.map q` is filtering by `q`. -/
theorem maskCols_map_self {α : Type} (q : α → Bool) :
    ∀ l : List α, maskCols (l.map q) l = l.filter q := by
  intro l
  induction l with
  | nil => rfl
  | cons a l ih =>
    simp only [List.map_cons, maskCols, List.zip_cons_cons, List.filterMap_cons,
      List.filter_cons] at *
    cases q a <;> simp [ih]

/-- Masking two equally long sequences keeps them equally long. -/
theorem maskCols_length_congr {α β : Type} :
    ∀ (mask : List Bool) (row : List α) (other : List β),
      row.length = other.length →
      (maskCols mask row).length = (maskCols mask other).length := by
  intro mask
  induction mask with
  | nil => intro row other _; simp [maskCols]
  | cons b ms ih =>
    intro row other h
    cases row with
    | nil => cases other with
      | nil => rfl
      | cons c os => simp at h
    | cons a rs => cases other with
      | nil => simp at h
      | cons c os =>
        simp only [List.length_cons, Nat.succ.injEq] at h
        simp only [maskCols, List.zip_cons_cons, List.filterMap_cons] at *
        cases b <;> simp [ih rs os h]

/-- A `filterMap` that loses no element has only `some` results. -/
theorem filterMap_full_isSome {α β : Type} (f : α → Option β) :
    ∀ l : List α, (l.filterMap f).length = l.length →
      ∀ a ∈ l, (f a).isSome := by
  intro l
  induction l with
  | nil => intro _ a ha; cases ha
  | cons a l ih =>
    intro h b hb
    cases hf : f a with
    | none =>
      exfalso
      rw [List.filterMap_cons, hf] at h
      simp only [List.length_cons] at h
      have := List.length_filterMap_le f l
      omega
    | some c =>
      rw [List.filterMap_cons, hf] at h
      simp only [List.length_cons, Nat.succ.injEq] at h
      cases hb with
      | head => simp [hf]
      | tail _ hb => exact ih h b hb

theorem lookup_mem {α β : Type} [BEq α] [LawfulBEq α] {k : α} {v : β} :
    ∀ {l : List (α × β)}, l.lookup k = some v → (k, v) ∈ l := by
  intro l
  induction l with
  | nil => intro h; cases h
  | cons p l ih =>
    intro h
    cases p with
    | mk a b =>
      by_cases hk : (k == a) = true
      · have hv : b = v := by simpa [List.lookup, hk] using h
        have ha : k = a := by simpa using hk
        subst hv
        subst ha
        exact List.mem_cons_self _ _
      · have h2 : List.lookup k l = some v := by simpa [List.lookup, hk] using h
        exact List.mem_cons_of_mem _ (ih h2)

/-- The per-gene mask of `scGPT.process_data` line 196 (`id_in_vocab >= 0`)
is vocabulary membership of the gene symbol. -/
theorem scgpt_mask_eq (vocab : Vocab) :
    ∀ genes : List String,
      (idInVocabList vocab genes).map (fun i => decide (0 ≤ i)) =
        genes.map (fun g => (vocab.lookup g).isSome) := by
  intro genes
  induction genes with
  | nil => rfl
  | cons g gs ih =>
    simp only [idInVocabList, List.map_cons] at *
    cases h : vocab.lookup g <;> simp_all [Int.ofNat_nonneg]

/-- `scGPT.check_data_validity` never raises an `AssertionError`. -/
theorem checkDataValidity_not_assert (adata : AnnData) (g : String) (ubl : Bool) :
    isAssertError (scGPT.checkDataValidity adata g ubl) = false := by
  unfold scGPT.checkDataValidity ensureRNADataValidity
  cases adata.getVarColumn g with
  | none => rfl
  | some _ =>
    by_cases hb : ubl = true ∧ (adata.obsColumns.lookup "batch_id").isNone = true
    · simp only [if_pos hb]
      rfl
    · simp only [if_neg hb]
      rfl

/-- The alignment check succeeds exactly when each parallel array has the
expected gene count. -/
theorem uceAlignmentCheck_ok_iff (chroms : List String) (starts : List Nat)
    (numGenes : Nat) (pe : List Nat) :
    uceAlignmentCheck chroms starts numGenes pe = Except.ok () ↔
      chroms.length = numGenes ∧ starts.length = numGenes ∧ pe.length = numGenes := by
  unfold uceAlignmentCheck
  by_cases hcond : chroms.length = starts.length ∧ starts.length = numGenes ∧
      numGenes = pe.length
  · rw [if_pos hcond]
    constructor
    · intro _
      exact ⟨by omega, by omega, by omega⟩
    · intro _
      rfl
  · rw [if_neg hcond]
    constructor
    · intro hcontra
      cases hcontra
    · intro h
      exact absurd ⟨by omega, by omega, by omega⟩ hcond

/-! ### Claims -/

/-- C5: the alignment validation of `UCE.process_data` rejects every input
in which any one of the parallel per-gene arrays (protein-embedding row
indices, chromosome labels, start positions) has a length different from
the expected gene count — whichever array disagrees, shorter or longer —
raising a fatal error whose message names each sequence and its length
alongside the expected count; when all lengths equal the gene count, no
error is raised. -/
theorem c5_alignment_validator (chroms : List String) (starts : List Nat)
    (numGenes : Nat) (pe : List Nat) :
    (uceAlignmentCheck chroms starts numGenes pe = Except.ok () ↔
      chroms.length = numGenes ∧ starts.length = numGenes ∧ pe.length = numGenes) ∧
    (¬(chroms.length = numGenes ∧ starts.length = numGenes ∧ pe.length = numGenes) →
      uceAlignmentCheck chroms starts numGenes pe =
        Except.error (.assertionError
          (uceAlignmentMsg chroms.length starts.length numGenes pe.length))) := by
  refine ⟨uceAlignmentCheck_ok_iff chroms starts numGenes pe, ?_⟩
  intro hne
  unfold uceAlignmentCheck
  rw [if_neg]
  intro hcond
  exact hne ⟨by omega, by omega, by omega⟩

/-- Witness for C5: a start-position array longer than the gene count is
rejected with the logged lengths. -/
theorem c5_alignment_validator_witness :
    uceAlignmentCheck ["chr1"] [5, 9] 1 [0] =
      Except.error (.assertionError (uceAlignmentMsg 1 2 1 1)) := by
  have h := (c5_alignment_validator ["chr1"] [5, 9] 1 [0]).2 (by decide)
  simpa using h

/-- C4: `load_model` with a supplied base model that lacks the
embedding-producer capability raises a `TypeError` and leaves the
Classifier exactly in its prior state: none of `base_model`,
`trained_task_model` or `name` is mutated. -/
theorem c4_load_model_no_mutation (s : ClassifierState) (bm : BaseModelObj)
    (cm : TrainedModelObj) (n : String) (hcap : isBaseModelProtocol bm = false) :
    s.loadModel (some bm) cm n =
      (s, Except.error (.typeError
        "Expected an instance of a class implementing BaseModelProtocol.")) := by
  unfold ClassifierState.loadModel
  simp [hcap]

/-- Witness for C4 at a fresh classifier and `badBaseModel`. -/
theorem c4_load_model_no_mutation_witness :
    ClassifierState.init.loadModel (some badBaseModel) demoTrained "nm" =
      (ClassifierState.init, Except.error (.typeError
        "Expected an instance of a class implementing BaseModelProtocol.")) :=
  c4_load_model_no_mutation ClassifierState.init badBaseModel demoTrained "nm" rfl

/-- C6 as stated is false: when a base model is bound, `get_predictions`
assigns `self.gene_col_name = gene_col_name` (classifier.py line 52), so
the stored gene-column-name changes whenever the argument differs from
it. -/
theorem c6_counterexample :
    (demoReadyState.getPredictions (Sum.inl demoAdata) "gene_name").1.geneColName =
      some "gene_name" ∧
    demoReadyState.geneColName = some "index" ∧
    decide ((some "gene_name" : Option String) = some "index") = false :=
  ⟨rfl, rfl, by decide⟩

/-- C6 amended: `get_predictions` leaves the bound base model, the trained
head and the name unchanged; the stored gene-column-name is unchanged when
no base model is bound, but is overwritten with the call's gene-column
argument when one is. -/
theorem c6_read_only_amended (s : ClassifierState)
    (x : AnnData ⊕ List (List Int)) (g : String) :
    (s.getPredictions x g).1.baseModel = s.baseModel ∧
    (s.getPredictions x g).1.trainedTaskModel = s.trainedTaskModel ∧
    (s.getPredictions x g).1.name = s.name ∧
    (s.getPredictions x g).1.geneColName =
      (if s.baseModel.isSome then some g else s.geneColName) := by
  unfold ClassifierState.getPredictions
  cases hb : s.baseModel with
  | none =>
    cases ht : s.trainedTaskModel <;> simp [hb, ht]
  | some bm =>
    cases x with
    | inl a => cases ht : s.trainedTaskModel <;> simp [hb, ht]
    | inr e => simp [hb]

/-- C8: two consecutive `get_predictions` calls with identical input data
and gene-column argument, with no intervening `train_classifier_head` or
`load_model` call, return identical outputs. -/
theorem c8_get_predictions_idempotent (s : ClassifierState)
    (x : AnnData ⊕ List (List Int)) (g : String) :
    (((s.getPredictions x g).1).getPredictions x g).2 = (s.getPredictions x g).2 := by
  unfold ClassifierState.getPredictions
  cases hb : s.baseModel with
  | none =>
    cases ht : s.trainedTaskModel <;> simp [hb, ht]
  | some bm =>
    cases x with
    | inl a => cases ht : s.trainedTaskModel <;> simp [hb, ht]
    | inr e => simp [hb]

/-- C7: the vocabulary mapping returns exactly one integer id per input
symbol — the vocabulary's id when the symbol is present, the sentinel `-1`
(negative and distinct from every vocabulary id) when it is absent.  It is
a total pure function of the vocabulary and the symbol sequence (so it
never raises and the vocabulary is not modified). -/
theorem c7_vocabulary_mapper (vocab : Vocab) (genes : List String) (i : Nat)
    (h : i < genes.length) :
    (idInVocabList vocab genes).length = genes.length ∧
    (∀ id, vocab.lookup (genes.getD i "") = some id →
      (idInVocabList vocab genes).getD i 0 = Int.ofNat id) ∧
    (vocab.lookup (genes.getD i "") = none →
      (idInVocabList vocab genes).getD i 0 = -1 ∧
      (idInVocabList vocab genes).getD i 0 < 0 ∧
      ∀ g id, vocab.lookup g = some id →
        (idInVocabList vocab genes).getD i 0 ≠ Int.ofNat id) := by
  have key := getD_map_lt (fun g =>
    match vocab.lookup g with
    | some id => Int.ofNat id
    | none => (-1 : Int)) genes i h "" 0
  refine ⟨by simp [idInVocabList], ?_, ?_⟩
  · intro id hid
    unfold idInVocabList
    rw [key, hid]
  · intro hnone
    unfold idInVocabList
    rw [key, hnone]
    refine ⟨rfl, by decide, ?_⟩
    intro g id _ hcontra
    have hc : (-1 : Int) = (id : Int) := hcontra
    omega

/-- Witness for C7 at `demoVocab` and the list `["A", "Z"]`, index 1 (an
unmapped symbol). -/
theorem c7_vocabulary_mapper_witness :
    (idInVocabList demoVocab ["A", "Z"]).length = 2 ∧
    (idInVocabList demoVocab ["A", "Z"]).getD 1 0 = -1 := by
  have h := c7_vocabulary_mapper demoVocab ["A", "Z"] 1 (by decide)
  exact ⟨h.1, (h.2.2 rfl).1⟩

/-- C1 as stated is false: `train_classifier_head` assigns
`self.base_model` and `self.name` (classifier.py lines 98-99) BEFORE
`_check_validity_for_training` runs (line 100), so a call whose base model
lacks the embedding-producer capability raises but leaves `base_model` and
`name` overwritten: on a fresh classifier both were `None` before the
failing call and are populated after it. -/
theorem c1_counterexample :
    (ClassifierState.init.trainClassifierHead demoAdata badBaseModel demoHead
        "index" "cell_type").2 =
      Except.error (.typeError
        "To train a classifier head, a base model of type BaseModelProtocol needs to generate the embeddings first.") ∧
    (ClassifierState.init.trainClassifierHead demoAdata badBaseModel demoHead
        "index" "cell_type").1.baseModel.isSome = true ∧
    ClassifierState.init.baseModel.isSome = false ∧
    (ClassifierState.init.trainClassifierHead demoAdata badBaseModel demoHead
        "index" "cell_type").1.name = some "BadBase with NeuralNetwork" ∧
    ClassifierState.init.name = none :=
  ⟨rfl, rfl, rfl, rfl, rfl⟩

/-- C1 amended: when a precondition of `train_classifier_head` fails (the
base model lacks the capability or the label column is absent), the error
is raised before dataset construction, embedding extraction or head
training, and `gene_col_name` and `trained_task_model` keep their prior
values — but `base_model` and `name` have already been overwritten with
the supplied base model and the composite name. -/
theorem c1_fail_fast_amended (s : ClassifierState) (a : AnnData)
    (bm : BaseModelObj) (hd : HeadObj) (g l : String)
    (hfail : isBaseModelProtocol bm = false ∨
      (a.obsColumns.lookup l).isSome = false) :
    isTypeError (s.trainClassifierHead a bm hd g l).2 = true ∧
    (s.trainClassifierHead a bm hd g l).1.geneColName = s.geneColName ∧
    (s.trainClassifierHead a bm hd g l).1.trainedTaskModel = s.trainedTaskModel ∧
    (s.trainClassifierHead a bm hd g l).1.baseModel = some bm ∧
    (s.trainClassifierHead a bm hd g l).1.name =
      some (bm.clsName ++ " with " ++ hd.clsName) := by
  rcases hfail with h | h <;>
    simp [ClassifierState.trainClassifierHead, isTypeError, h]

/-- Witness for C1 (amended) at a fresh classifier and `badBaseModel`. -/
theorem c1_fail_fast_amended_witness :
    isTypeError (ClassifierState.init.trainClassifierHead demoAdata badBaseModel
      demoHead "index" "cell_type").2 = true ∧
    (ClassifierState.init.trainClassifierHead demoAdata badBaseModel demoHead
      "index" "cell_type").1.geneColName = none := by
  have h := c1_fail_fast_amended ClassifierState.init demoAdata badBaseModel
    demoHead "index" "cell_type" (Or.inl rfl)
  exact ⟨h.1, h.2.1⟩

/-- C10: the assertion `np.all(gene_ids >= 0)` of `scGPT.process_data`
(line 208) never fails — no call returns an `AssertionError` — because
after the restriction to columns with `id_in_vocab >= 0` every remaining
gene symbol is present in the vocabulary, so re-looking the symbols up
yields only nonnegative ids. -/
theorem c10_assert_never_fails (vocab : Vocab) (padToken : String)
    (adata : AnnData) (g : String) (ubl : Bool) :
    isAssertError (scGPT.processData vocab padToken adata g ubl).2 = false ∧
    ∀ s ∈ maskCols ((idInVocabList vocab ((adata.getVarColumn g).getD [])).map
        (fun i => decide (0 ≤ i))) ((adata.getVarColumn g).getD []),
      (vocab.lookup s).isSome = true := by
  constructor
  · unfold scGPT.processData
    cases hc : scGPT.checkDataValidity adata g ubl with
    | error e =>
      have h2 := checkDataValidity_not_assert adata g ubl
      rw [hc] at h2
      cases e with
      | keyError m => rfl
      | typeError m => rfl
      | assertionError m => simp [isAssertError] at h2
    | ok u =>
      cases u
      have hall : ((maskCols ((idInVocabList vocab ((adata.getVarColumn g).getD [])).map
          (fun i => decide (0 ≤ i))) ((adata.getVarColumn g).getD [])).map
            (fun s => Int.ofNat ((vocab.lookup s).getD
              ((vocab.lookup padToken).getD 0)))).all
          (fun i => decide (0 ≤ i)) = true := by
        simp only [List.all_eq_true, List.mem_map]
        rintro i ⟨s, _, rfl⟩
        simp
      simp [hall, isAssertError]
  · rw [scgpt_mask_eq, maskCols_map_self]
    intro s hs
    exact (List.mem_filter.mp hs).2

/-- Witness for C10 at `demoVocab` and `demoAdata` (where gene `Z` is
dropped). -/
theorem c10_assert_never_fails_witness :
    isAssertError (scGPT.processData demoVocab "<pad>" demoAdata "index" false).2 =
      false ∧
    (demoVocab.lookup "B").isSome = true := by
  have h := c10_assert_never_fails demoVocab "<pad>" demoAdata "index" false
  refine ⟨h.1, h.2 "B" (by decide)⟩

/-- C9: `process_data` mutates the caller's input matrix rather than
leaving it unchanged: scGPT writes the `id_in_vocab` column into the
input's per-gene metadata on every validity-passing call; UCE reassigns
the input's var index when a non-default gene column is given; and the
UCE minimum-cell filter drops genes of the input in place — so the input
object after the call can differ from the input before the call, as the
two concrete runs show. -/
theorem c9_process_data_mutates_input :
    (∀ (vocab : Vocab) (pad : String) (adata : AnnData) (g : String),
      (adata.getVarColumn g).isSome = true →
      (scGPT.processData vocab pad adata g false).1.idInVocab =
        some (idInVocabList vocab ((adata.getVarColumn g).getD []))) ∧
    (∀ (refs : UCERefs) (adata : AnnData) (g nm : String),
      (adata.getVarColumn g).isSome = true → g ≠ "index" →
      (UCE.processData refs adata g nm none).1.varIndex =
        (adata.getVarColumn g).getD []) ∧
    ((UCE.processData demoRefsU demoAdataU "index" "test" (some 1)).1.varIndex =
        ["A", "B"] ∧
      demoAdataU.varIndex = ["A", "B", "C"]) ∧
    ((scGPT.processData demoVocab "<pad>" demoAdata "index" false).1.idInVocab =
        some [3, -1, 7] ∧
      demoAdata.idInVocab = none) := by
  refine ⟨?_, ?_, ⟨rfl, rfl⟩, ⟨rfl, rfl⟩⟩
  · intro vocab pad adata g hg
    cases hv : adata.getVarColumn g with
    | none => rw [hv] at hg; cases hg
    | some col =>
      simp only [scGPT.processData, scGPT.checkDataValidity, ensureRNADataValidity,
        hv, Bool.false_eq_true, false_and, if_false, Option.getD_some]
      split <;> rfl
  · intro refs adata g nm hg hne
    cases hv : adata.getVarColumn g with
    | none => rw [hv] at hg; cases hg
    | some col =>
      simp only [UCE.processData, UCE.mutateAdata, ensureRNADataValidity, hv, ne_eq,
        hne, not_false_eq_true, if_true, Option.getD_some]
      split <;> rfl

/-- C2: whenever `process_data` produces a dataset, the dataset's gene
dimension is exactly the order-preserving intersection of the filters the
model applies — never more.  For scGPT: the gene ids are one per gene of
the input that is vocabulary-known, in original relative order, and every
row of the count matrix has that width.  For UCE: the shapes dictionary
records exactly the genes of the (possibly min-cell-filtered) caller
matrix `adata'` that are known to the protein-embedding reference, in
original relative order; the chromosome array has the same length, and
each such gene is also known to the chromosome reference table (a gene
missing there aborts with the alignment error instead, so no successful
dataset ever has more genes than the reference-known intersection). -/
theorem c2_gene_dimension :
    (∀ (vocab : Vocab) (padToken : String) (adata : AnnData) (g : String)
       (ubl : Bool) (adata' : AnnData) (ds : SCGPTDataset),
       adata.wellFormed →
       scGPT.processData vocab padToken adata g ubl = (adata', Except.ok ds) →
       ds.geneIds = (((adata.getVarColumn g).getD []).filter
           (fun s => (vocab.lookup s).isSome)).map
           (fun s => Int.ofNat ((vocab.lookup s).getD ((vocab.lookup padToken).getD 0))) ∧
       ds.geneIds.length = (((adata.getVarColumn g).getD []).filter
           (fun s => (vocab.lookup s).isSome)).length ∧
       ∀ row ∈ ds.countMatrix,
         row.length = (((adata.getVarColumn g).getD []).filter
           (fun s => (vocab.lookup s).isSome)).length) ∧
    (∀ (refs : UCERefs) (adata : AnnData) (g nm : String) (fmin : Option Nat)
       (adata' : AnnData) (ds : UCEDataset),
       UCE.processData refs adata g nm fmin = (adata', Except.ok ds) →
       ds.shapesDict = [(nm, (adata'.X.length,
         (adata'.varIndex.filter (fun s => refs.embeddingKnown.contains s)).length))] ∧
       ds.peRowIdxs = getProteinEmbeddingsIdxs refs.offset refs.embeddingKnown
         (adata'.varIndex.filter (fun s => refs.embeddingKnown.contains s)) ∧
       ds.chroms.length =
         (adata'.varIndex.filter (fun s => refs.embeddingKnown.contains s)).length ∧
       ∀ s ∈ adata'.varIndex.filter (fun s => refs.embeddingKnown.contains s),
         (refs.chromTable.lookup s).isSome = true) := by
  constructor
  · intro vocab padToken adata g ubl adata' ds hwf heq
    have hkept : maskCols ((idInVocabList vocab ((adata.getVarColumn g).getD [])).map
        (fun i => decide (0 ≤ i))) ((adata.getVarColumn g).getD []) =
        ((adata.getVarColumn g).getD []).filter (fun s => (vocab.lookup s).isSome) := by
      rw [scgpt_mask_eq, maskCols_map_self]
    unfold scGPT.processData at heq
    cases hcv : scGPT.checkDataValidity adata g ubl with
    | error e =>
      rw [hcv] at heq
      simp at heq
    | ok u =>
      cases u
      rw [hcv] at heq
      dsimp only at heq
      split at heq
      · simp only [Prod.mk.injEq, Except.ok.injEq] at heq
        obtain ⟨ha, hds⟩ := heq
        subst hds
        refine ⟨by rw [hkept], by rw [hkept, List.length_map], ?_⟩
        intro row hrow
        simp only [List.mem_map] at hrow
        obtain ⟨row0, hrow0, rfl⟩ := hrow
        have hcol : ∃ col, adata.getVarColumn g = some col := by
          unfold scGPT.checkDataValidity ensureRNADataValidity at hcv
          cases hv : adata.getVarColumn g with
          | none => rw [hv] at hcv; simp at hcv
          | some col => exact ⟨col, rfl⟩
        obtain ⟨col, hcol⟩ := hcol
        have hglen : ((adata.getVarColumn g).getD []).length = adata.varIndex.length := by
          rw [hcol, Option.getD_some]
          unfold AnnData.getVarColumn at hcol
          by_cases hgi : g = "index"
          · rw [if_pos hgi, Option.some.injEq] at hcol
            rw [← hcol]
          · rw [if_neg hgi] at hcol
            exact hwf.2.1 (g, col) (lookup_mem hcol)
        have hrl : row0.length = ((adata.getVarColumn g).getD []).length := by
          rw [hglen]
          exact hwf.1 row0 hrow0
        rw [maskCols_length_congr _ row0 ((adata.getVarColumn g).getD []) hrl, hkept]
      · simp at heq
  · intro refs adata g nm fmin adata' ds heq
    have hfv : ∀ a2 : AnnData,
        (loadGeneEmbeddingsAdata a2 refs.embeddingKnown).1.varIndex =
          a2.varIndex.filter (fun s => refs.embeddingKnown.contains s) := by
      intro a2
      unfold loadGeneEmbeddingsAdata AnnData.restrictGenes
      exact maskCols_map_self _ _
    have hfx : ∀ a2 : AnnData,
        (loadGeneEmbeddingsAdata a2 refs.embeddingKnown).1.X.length = a2.X.length := by
      intro a2
      unfold loadGeneEmbeddingsAdata AnnData.restrictGenes
      exact List.length_map _ _
    unfold UCE.processData at heq
    cases hv : ensureRNADataValidity adata g with
    | error e =>
      rw [hv] at heq
      simp at heq
    | ok u =>
      cases u
      rw [hv] at heq
      dsimp only at heq
      split at heq
      · rename_i e2 halign
        simp at heq
      · rename_i halign
        simp only [Prod.mk.injEq, Except.ok.injEq] at heq
        obtain ⟨ha, hds⟩ := heq
        subst hds
        subst ha
        rw [uceAlignmentCheck_ok_iff] at halign
        refine ⟨by rw [hfv, hfx], by rw [hfv]; exact rfl, ?_, ?_⟩
        · simp only [getPositions]
          have hc1 := halign.1
          simp only [getPositions] at hc1
          rw [hc1, hfv]
        · intro s hs
          have hc1 := halign.1
          simp only [getPositions] at hc1
          rw [hfv] at hc1
          have hall := filterMap_full_isSome
            (fun g => (refs.chromTable.lookup g).map Prod.fst)
            ((UCE.mutateAdata adata g fmin).varIndex.filter
              (fun s => refs.embeddingKnown.contains s))
            (by rw [hc1]) s hs
          cases hl : refs.chromTable.lookup s with
          | none => simp [hl] at hall
          | some v => rfl
/-- Witness for C2 at the concrete scGPT and UCE runs: one of three genes
is vocabulary-unknown (scGPT keeps 2); one of three genes fails the
min-cell filter and the rest are reference-known (UCE records 2). -/
theorem c2_gene_dimension_witness :
    demoDs.geneIds.length = 2 ∧ demoDsU.shapesDict = [("test", (1, 2))] := by
  have h1 := c2_gene_dimension.1 demoVocab "<pad>" demoAdata "index" false
    demoAdataAfter demoDs (by decide) (by rfl)
  have h2 := c2_gene_dimension.2 demoRefsU demoAdataU "index" "test" (some 1)
    demoAdataUAfter demoDsU (by rfl)
  refine ⟨?_, ?_⟩
  · rw [h1.2.1]
    rfl
  · rw [h2.1]
    rfl

/-- C3 fails on the code: `UCE.process_data` line 127 builds the stored
expression counts from `adata` (the caller's matrix after the min-cell
filter) instead of `filtered_adata` (after protein-embedding filtering),
although the shapes dictionary records `filtered_adata`'s gene count and
the comment above line 122 says the expression data is being filtered.
On `demoAdataC3` (genes `A`, `B`, of which only `A` is
protein-embedding-known) the produced dataset records 1 gene in its
shapes dictionary while its stored count matrix row has 2 columns. -/
theorem c3_stored_counts_bug :
    (UCE.processData demoRefsC3 demoAdataC3 "index" "test" none).2 =
      Except.ok demoDsC3 ∧
    demoDsC3.shapesDict = [("test", (1, 1))] ∧
    (demoDsC3.storedCounts.headD []).length = 2 :=
  ⟨by rfl, rfl, rfl⟩

/-- Witness for C9 at the concrete scGPT and UCE inputs. -/
theorem c9_process_data_mutates_input_witness :
    (scGPT.processData demoVocab "<pad>" demoAdata "index" false).1.idInVocab =
      some (idInVocabList demoVocab ["A", "Z", "B"]) ∧
    (UCE.processData demoRefsU demoAdataG "gene_name" "test" none).1.varIndex =
      ["G1", "G2"] := by
  have h1 := c9_process_data_mutates_input.1 demoVocab "<pad>" demoAdata "index" rfl
  have h2 := c9_process_data_mutates_input.2.1 demoRefsU demoAdataG "gene_name"
    "test" rfl (by decide)
  exact ⟨h1, by simpa using h2⟩

end Helical
